import Mathlib

/-!
Verification development for the SquadJS UpdateManager (src/update-manager.js).

The JavaScript class `UpdateManager` is embedded shallowly:

* mutable plugin records become the structure `PluginInfo`, and the mutating
  methods become functions from the old record (plus an explicit environment
  for network / filesystem / clock outcomes) to the new record;
* the `registeredPlugins` JS `Map` becomes an association list with JS `Map`
  semantics (`mapSet` replaces the value in place, `mapGet` finds the first
  binding);
* the static `updateSummary` object becomes the structure `UpdateSummary`;
* `axios` requests and `fs` calls are fallible: their outcomes are supplied
  by environment records (`ReleaseOutcome`, `TxEnv`) and the embedded
  functions reproduce the source's `try`/`catch` handling of each outcome;
* calls to the Discord notifier are recorded as `NotifyEvent` values instead
  of being performed;
* `new Date()` values are supplied as a `Nat` clock field of the environment
  (one instant per check; the source stamps several `new Date()` during one
  check, whose sub-millisecond differences no claim depends on).
-/

/-! ## Version comparator (`compareVersions`, source lines 324-340) -/

/-- JS truthiness of the `version1` / `version2` parameters of
`compareVersions`: `undefined` (here `none`) and the empty string are falsy,
so `if (!version1 || !version2) return 0` fires exactly on these. -/
def jsFalsyStr : Option String → Bool
  | none => true
  | some s => s = ""

/-- JS `s.replace('v', '')` with a string pattern replaces only the FIRST
occurrence of the substring `"v"`, anywhere in the string (not a leading
character strip). -/
def removeFirstV : List Char → List Char
  | [] => []
  | c :: cs => if c = 'v' then cs else c :: removeFirstV cs


/-- JS `"a.b".split('.')` on the character list: splitting on `'.'` keeps
empty segments, so `""` gives `[""]`, `"1."` gives `["1", ""]` and `"1..2"`
gives `["1", "", "2"]`. -/
def splitOnDot : List Char → List (List Char)
  | [] => [[]]
  | c :: cs =>
    if c = '.' then [] :: splitOnDot cs
    else
      match splitOnDot cs with
      | [] => [[c]]
      | seg :: segs => (c :: seg) :: segs

/-- Decimal value of a digit string. -/
def digitsVal (cs : List Char) : Nat :=
  cs.foldl (fun n c => 10 * n + (c.toNat - '0'.toNat)) 0

/-- JS `Number(seg) || 0` applied to one dot-free version segment
(`.map(Number)` followed by `v1Parts[i] || 0`): a decimal integer string
(optionally signed) parses to its value, while the empty string, `NaN`
(non-numeric segments) and `-0` all collapse to `0`.  Exotic `Number` forms
(exponents, hex, fractions, surrounding whitespace) do not occur in dot-split
version segments and are not modelled. -/
def segNum (cs : List Char) : Int :=
  if cs.isEmpty then 0
  else if cs.all Char.isDigit then (digitsVal cs : Int)
  else
    match cs with
    | '-' :: rest => if ¬rest.isEmpty ∧ rest.all Char.isDigit then -(digitsVal rest : Int) else 0
    | '+' :: rest => if ¬rest.isEmpty ∧ rest.all Char.isDigit then (digitsVal rest : Int) else 0
    | _ => 0

/-- The indexed loop of `compareVersions`:
`for (let i = 0; i < Math.max(len1, len2); i++)` with
`v1Parts[i] || 0` as `getD i 0`; `fuel` is the number of iterations left. -/
def compareLoop (p1 p2 : List Int) : Nat → Nat → Int
  | 0, _ => 0
  | fuel + 1, i =>
    let v1 := p1.getD i 0
    let v2 := p2.getD i 0
    if v1 > v2 then 1
    else if v1 < v2 then -1
    else compareLoop p1 p2 fuel (i + 1)

/-- `UpdateManager.compareVersions(version1, version2)`.  The parameters are
`Option String` because the JS function may receive `undefined`; the guard
`if (!version1 || !version2) return 0` covers `undefined` and `""`. -/
def compareVersions (version1 version2 : Option String) : Int :=
  if jsFalsyStr version1 ∨ jsFalsyStr version2 then 0
  else
    let v1Parts := (splitOnDot (removeFirstV (version1.getD "").data)).map segNum
    let v2Parts := (splitOnDot (removeFirstV (version2.getD "").data)).map segNum
    compareLoop v1Parts v2Parts (max v1Parts.length v2Parts.length) 0

example : compareVersions (some "v1.2.0") (some "v1.3.0") = -1 := by decide
example : compareVersions (some "1.10.0") (some "1.9.9") = 1 := by decide
example : compareVersions (some "v2.0") (some "2.0.0") = 0 := by decide
example : compareVersions (some "") (some "v1.0.0") = 0 := by decide
example : compareVersions (some "1.v1") (some "1.0") = 1 := by decide

/-! ## Spec-side comparator definitions

`segCmp` walks two segment lists in step, treating a missing segment as `0`:
the recursive rendering of "compare segment-by-segment up to the longer
length, first non-equal segment decides, exhausting equal segments yields 0".
`compareVersionsClaimed` renders claim C4 word for word ("strips a single
leading non-numeric prefix character from each string"); `compareVersionsAmended`
renders the amended description ("removes the first occurrence of the
character 'v' anywhere in each string"). -/

/-- Comparison of the remaining right-hand segments once the left side is
exhausted (each missing left segment counts as `0`). -/
def segCmpNil : List Int → Int
  | [] => 0
  | y :: ys => if (0 : Int) > y then 1 else if (0 : Int) < y then -1 else segCmpNil ys

def segCmp : List Int → List Int → Int
  | [], ys => segCmpNil ys
  | x :: xs, [] => if x > 0 then 1 else if x < 0 then -1 else segCmp xs []
  | x :: xs, y :: ys => if x > y then 1 else if x < y then -1 else segCmp xs ys

/-- Claim C4's stripping step: drop a single leading non-numeric character. -/
def claimedStrip (cs : List Char) : List Char :=
  match cs with
  | [] => []
  | c :: rest => if ¬c.isDigit then rest else c :: rest

/-- Claim C4's parsing step: "parse each segment as an integer, treating a
missing or non-numeric segment as 0". -/
def claimedSegNum (cs : List Char) : Int :=
  if ¬cs.isEmpty ∧ cs.all Char.isDigit then (digitsVal cs : Int) else 0

/-- The comparison algorithm exactly as claim C4 states it. -/
def compareVersionsClaimed (a b : String) : Int :=
  segCmp ((splitOnDot (claimedStrip a.data)).map claimedSegNum)
    ((splitOnDot (claimedStrip b.data)).map claimedSegNum)

/-- The amended C4 algorithm: remove the first occurrence of `'v'` anywhere in
each string (the JS `replace('v', '')`), split on `'.'`, parse segments with
missing / non-numeric as 0, and compare segment-by-segment. -/
def compareVersionsAmended (a b : String) : Int :=
  segCmp ((splitOnDot (removeFirstV a.data)).map segNum)
    ((splitOnDot (removeFirstV b.data)).map segNum)

/-! ## Plugin records and the registry (`registerPlugin`, `getPluginInfo`,
`disablePluginUpdates`, `enablePluginUpdates`) -/

/-- One entry of `registeredPlugins` (the object literal built by
`registerPlugin`, source lines 33-45).  The `log` function field carries no
state and is dropped.  The JS literal has no `disabled` field; reading the
missing field is falsy, and `disablePluginUpdates` / `enablePluginUpdates`
write it, so it is modelled as a `Bool` that registration sets to `false`. -/
structure PluginInfo where
  name : String
  version : String
  owner : String
  repo : String
  filePath : String
  needsUpdate : Bool
  latestVersion : Option String
  lastChecked : Option Nat
  lastUpdated : Option Nat
  error : Option String
  disabled : Bool
deriving DecidableEq

/-- The record `registerPlugin` builds for a new registration. -/
def mkPluginInfo (pluginName currentVersion owner repo pluginFilePath : String) : PluginInfo :=
  { name := pluginName
    version := currentVersion
    owner := owner
    repo := repo
    filePath := pluginFilePath
    needsUpdate := false
    latestVersion := none
    lastChecked := none
    lastUpdated := none
    error := none
    disabled := false }

/-- The `registeredPlugins` JS `Map`, as an association list in insertion
order. -/
def Registry := List (String × PluginInfo)

/-- JS `Map.prototype.set`: replace the value of an existing key in place,
otherwise append the new binding. -/
def mapSet (m : List (String × PluginInfo)) (k : String) (v : PluginInfo) :
    List (String × PluginInfo) :=
  match m with
  | [] => [(k, v)]
  | (k1, v1) :: rest => if k1 = k then (k, v) :: rest else (k1, v1) :: mapSet rest k v

/-- JS `Map.prototype.get`. -/
def mapGet (m : List (String × PluginInfo)) (k : String) : Option PluginInfo :=
  match m with
  | [] => none
  | (k1, v1) :: rest => if k1 = k then some v1 else mapGet rest k

/-- The keys of the map, in order. -/
def mapKeys (m : List (String × PluginInfo)) : List String :=
  m.map (·.1)

/-- `UpdateManager.registerPlugin` (source lines 32-56): build the record and
`set` it under the plugin name; returns the new registry and the record.  The
one-time scheduling side effect (`initialize`) touches only timers and is not
part of the registry state. -/
def registerPlugin (reg : List (String × PluginInfo))
    (pluginName currentVersion owner repo pluginFilePath : String) :
    List (String × PluginInfo) × PluginInfo :=
  let pluginInfo := mkPluginInfo pluginName currentVersion owner repo pluginFilePath
  (mapSet reg pluginName pluginInfo, pluginInfo)

/-- `UpdateManager.getPluginInfo` (source lines 412-414). -/
def getPluginInfo (reg : List (String × PluginInfo)) (pluginName : String) :
    Option PluginInfo :=
  mapGet reg pluginName

/-- `UpdateManager.disablePluginUpdates` (source lines 422-428): sets
`plugin.disabled = true` on the stored record, no-op when absent. -/
def disablePluginUpdates (reg : List (String × PluginInfo)) (pluginName : String) :
    List (String × PluginInfo) :=
  match mapGet reg pluginName with
  | none => reg
  | some p => mapSet reg pluginName { p with disabled := true }

/-- `UpdateManager.enablePluginUpdates` (source lines 431-437). -/
def enablePluginUpdates (reg : List (String × PluginInfo)) (pluginName : String) :
    List (String × PluginInfo) :=
  match mapGet reg pluginName with
  | none => reg
  | some p => mapSet reg pluginName { p with disabled := false }

/-! ## The cycle summary (`updateSummary` and its operations) -/

/-- The static `updateSummary` object (source lines 9-15). -/
structure UpdateSummary where
  totalChecked : Nat
  totalUpdated : Nat
  pluginsChecked : List String
  pluginsUpdated : List String
  lastCheck : Option Nat
deriving DecidableEq

/-- `UpdateManager.resetUpdateSummary` (source lines 359-367) and the initial
value of `updateSummary`. -/
def resetSummaryValue : UpdateSummary :=
  { totalChecked := 0
    totalUpdated := 0
    pluginsChecked := []
    pluginsUpdated := []
    lastCheck := none }

/-- `UpdateManager.addPluginChecked` (source lines 343-348): add-if-absent
into `pluginsChecked` with its counter. -/
def addPluginChecked (s : UpdateSummary) (pluginName : String) : UpdateSummary :=
  if pluginName ∈ s.pluginsChecked then s
  else
    { s with
      pluginsChecked := s.pluginsChecked ++ [pluginName]
      totalChecked := s.totalChecked + 1 }

/-- `UpdateManager.addPluginUpdated` (source lines 351-356): add-if-absent
into `pluginsUpdated` with its counter; the `newVersion` parameter is unused
in the source and kept for fidelity. -/
def addPluginUpdated (s : UpdateSummary) (pluginName : String) (_newVersion : String) :
    UpdateSummary :=
  if pluginName ∈ s.pluginsUpdated then s
  else
    { s with
      pluginsUpdated := s.pluginsUpdated ++ [pluginName]
      totalUpdated := s.totalUpdated + 1 }

/-- The state effect of `UpdateManager.printUpdateSummary` (source lines
370-387): when nothing was checked it returns before logging or resetting;
otherwise it logs the consolidated message and resets the summary. -/
def printUpdateSummary (s : UpdateSummary) : UpdateSummary :=
  if s.totalChecked = 0 then s else resetSummaryValue

/-! ## Remote version resolution (`getLatestVersion`, source lines 304-322) -/

/-- Outcome of the `axios.get` call on the releases endpoint: either a
response (whose JSON may or may not carry a `tag_name` string), or a thrown
error with an optional HTTP status.  `tagName = some ""` models a present but
empty `tag_name`, which is falsy in the source's
`if (response.data && response.data.tag_name)` guard. -/
inductive ReleaseOutcome where
  | ok (tagName : Option String)
  | httpError (status : Option Nat) (message : String)
deriving DecidableEq

/-- `UpdateManager.getLatestVersion`: the `try` block returns the tag when
present and truthy, `null` otherwise; the `catch` block logs (404 and other
failures differently) and returns `null`.  Every outcome maps to an
`Option String`; the function never propagates an exception. -/
def getLatestVersion (outcome : ReleaseOutcome) : Option String :=
  match outcome with
  | .ok tagName =>
    match tagName with
    | some t => if t = "" then none else some t
    | none => none
  | .httpError _ _ => none

/-! ## The update transaction (`performPluginUpdate`, source lines 234-268) -/

/-- Outcomes of the fallible steps inside `performPluginUpdate`:
* `fetch`: `axios.get(updatedCodeUrl).data` — the artifact body, or a thrown
  error message (the URL is pure string building from owner/repo/version and
  `getRelativePath`, addressed to the network layer this field abstracts);
* `backupPath`: result of `createBackup`, which catches its own errors and
  returns the backup path or `null`;
* `write`: `fs.writeFileSync(plugin.filePath, updatedCode)`;
* `reread`: the verification `fs.readFileSync(plugin.filePath, 'utf8')`. -/
structure TxEnv where
  fetch : Except String String
  backupPath : Option String
  write : Except String Unit
  reread : Except String String

/-- The object `performPluginUpdate` resolves with:
`{updated: true, newVersion, oldVersion, backupPath}` or
`{updated: false, error}`. -/
inductive UpdateResult where
  | success (newVersion oldVersion : String) (backupPath : Option String)
  | failure (error : String)
deriving DecidableEq

/-- `UpdateManager.performPluginUpdate`: download, backup, write, verify; the
surrounding `try`/`catch` converts the first thrown step error — including the
explicit `throw` on verification mismatch — into `{updated: false, error}`. -/
def performPluginUpdate (env : TxEnv) (plugin : PluginInfo) (latestVersion : String) :
    UpdateResult :=
  match env.fetch with
  | .error e => .failure e
  | .ok updatedCode =>
    let backupPath := env.backupPath
    match env.write with
    | .error e => .failure e
    | .ok _ =>
      match env.reread with
      | .error e => .failure e
      | .ok verifyCode =>
        if verifyCode ≠ updatedCode then
          .failure "File verification failed - update was not written correctly"
        else
          .success latestVersion plugin.version backupPath

/-! ## Per-plugin check (`checkPluginUpdate`, source lines 176-231) -/

/-- One recorded call of
`discordNotifier.onPluginUpdated(name, oldVersion, newVersion, backupPath)`. -/
structure NotifyEvent where
  name : String
  oldVersion : String
  newVersion : String
  backupPath : Option String
deriving DecidableEq

/-- Environment of one per-plugin check: the outcome of the releases request
(used only when no `latestVersion` argument is supplied), the transaction
step outcomes, the current clock, and whether `this.discordNotifier` is
configured. -/
structure CheckEnv where
  resolve : ReleaseOutcome
  tx : TxEnv
  now : Nat
  notifierPresent : Bool

/-- Result of one per-plugin check: the mutated record, the mutated
`updateSummary`, and the notifier calls made. -/
structure CheckResult where
  plugin : PluginInfo
  summary : UpdateSummary
  events : List NotifyEvent

/-- `UpdateManager.checkPluginUpdate(plugin, latestVersion = null)`.
`latestVersionArg = some v` is a caller-supplied version; `if (!latestVersion)`
re-resolves when the argument is absent or falsy (`""`).  The branches follow
the source:
* resolution still absent → `error` and `lastChecked` set, early return;
* resolved → `latestVersion` / `lastChecked` stamped, `error` cleared, then
  the comparison decides: `< 0` runs `performPluginUpdate` (success mutates
  `lastUpdated`, `version`, `needsUpdate` and notifies Discord when
  configured; failure records `updateResult.error || 'Update failed'`),
  `> 0` and `= 0` only log; finally `addPluginChecked`.
The outer `catch` handles only throws from the collaborators, which this
model records as data instead of executing, so it has no reachable branch
here. -/
def checkPluginUpdate (env : CheckEnv) (plugin : PluginInfo)
    (latestVersionArg : Option String) (summary : UpdateSummary) : CheckResult :=
  let resolved : Option String :=
    match latestVersionArg with
    | some v => if v = "" then getLatestVersion env.resolve else some v
    | none => getLatestVersion env.resolve
  match resolved with
  | none =>
    { plugin :=
        { plugin with
          error := some "Could not determine latest version"
          lastChecked := some env.now }
      summary := summary
      events := [] }
  | some latestVersion =>
    let plugin1 :=
      { plugin with
        latestVersion := some latestVersion
        lastChecked := some env.now
        error := none }
    let comparison := compareVersions (some plugin1.version) (some latestVersion)
    if comparison < 0 then
      let plugin2 := { plugin1 with needsUpdate := true }
      match performPluginUpdate env.tx plugin2 latestVersion with
      | .success _newVersion oldVersion backupPath =>
        let plugin3 :=
          { plugin2 with
            lastUpdated := some env.now
            version := latestVersion
            needsUpdate := false }
        { plugin := plugin3
          summary := addPluginChecked summary plugin3.name
          events :=
            if env.notifierPresent then
              [{ name := plugin3.name
                 oldVersion := oldVersion
                 newVersion := latestVersion
                 backupPath := backupPath }]
            else [] }
      | .failure e =>
        let plugin3 := { plugin2 with error := some (if e = "" then "Update failed" else e) }
        { plugin := plugin3
          summary := addPluginChecked summary plugin3.name
          events := [] }
    else
      { plugin := plugin1
        summary := addPluginChecked summary plugin1.name
        events := [] }

/-! ## Grouped repository check (`checkRepositoryUpdates`, source lines
156-173) and the cycle grouping (`checkAllUpdates`, source lines 126-153) -/

/-- The sequential `for (const plugin of plugins)` loop of
`checkRepositoryUpdates`: each member runs `checkPluginUpdate` with the
already-resolved version, threading the summary and collecting notifier
calls. -/
def runMembers (env : CheckEnv) (latestVersion : String) :
    List PluginInfo → UpdateSummary → List PluginInfo × UpdateSummary × List NotifyEvent
  | [], summary => ([], summary, [])
  | p :: ps, summary =>
    let r := checkPluginUpdate env p (some latestVersion) summary
    let rest := runMembers env latestVersion ps r.summary
    (r.plugin :: rest.1, rest.2.1, r.events ++ rest.2.2)

/-- `UpdateManager.checkRepositoryUpdates(repoKey, plugins)`: resolve the
latest version once for the group; when resolution fails (`!latestVersion`)
log a warning and return — touching no member record and no summary — else
check every member with the shared version. -/
def checkRepositoryUpdates (env : CheckEnv) (plugins : List PluginInfo)
    (summary : UpdateSummary) : List PluginInfo × UpdateSummary × List NotifyEvent :=
  match getLatestVersion env.resolve with
  | none => (plugins, summary, [])
  | some latestVersion => runMembers env latestVersion plugins summary

/-- `` `${plugin.owner}/${plugin.repo}` ``, the repository grouping key. -/
def repoKey (p : PluginInfo) : String :=
  p.owner ++ "/" ++ p.repo

/-- Append a plugin to its repository group, creating the group if absent
(the `if (!repos.has(repoKey)) repos.set(repoKey, []); repos.get(repoKey).push(plugin)`
body of the grouping loop). -/
def pushGroup (groups : List (String × List PluginInfo)) (k : String) (p : PluginInfo) :
    List (String × List PluginInfo) :=
  match groups with
  | [] => [(k, [p])]
  | (k1, ps) :: rest =>
    if k1 = k then (k1, ps ++ [p]) :: rest else (k1, ps) :: pushGroup rest k p

/-- The grouping loop of `checkAllUpdates` (source lines 134-141): every
registered plugin — the source applies no `disabled` filter — is pushed into
the group of its `owner/repo` key, in registry order. -/
def groupPlugins (reg : List (String × PluginInfo)) : List (String × List PluginInfo) :=
  reg.foldl (fun repos entry => pushGroup repos (repoKey entry.2) entry.2) []

/-! ## Manual per-plugin check (`checkPluginUpdates`, source lines 395-403) -/

/-- `UpdateManager.checkPluginUpdates(pluginName)`: look the record up — the
source reads it straight from the `Map` with no `disabled` test — and run the
full `checkPluginUpdate` on it with no pre-resolved version; unknown names
only log.  The mutated record is written back to the registry (the JS record
is mutated in place inside the `Map`). -/
def checkPluginUpdates (env : CheckEnv) (reg : List (String × PluginInfo))
    (pluginName : String) (summary : UpdateSummary) :
    List (String × PluginInfo) × UpdateSummary × List NotifyEvent :=
  match mapGet reg pluginName with
  | none => (reg, summary, [])
  | some plugin =>
    let r := checkPluginUpdate env plugin none summary
    (mapSet reg pluginName r.plugin, r.summary, r.events)

/-! ## Lemmas relating the indexed comparison loop to the segment walk -/

/-- The comparison loop rephrased on the suffixes it still inspects. -/
def cmpSuffix : Nat → List Int → List Int → Int
  | 0, _, _ => 0
  | fuel + 1, xs, ys =>
    let a := xs.headD 0
    let b := ys.headD 0
    if a > b then 1 else if a < b then -1 else cmpSuffix fuel xs.tail ys.tail

theorem headD_drop_eq_getD (l : List Int) (i : Nat) : (l.drop i).headD 0 = l.getD i 0 := by
  induction l generalizing i with
  | nil => simp [List.getD]
  | cons a as ih =>
    cases i with
    | zero => simp [List.getD]
    | succ j => simp only [List.drop_succ_cons, List.getD_cons_succ]; exact ih j

theorem tail_drop_eq_drop_succ (l : List Int) (i : Nat) : (l.drop i).tail = l.drop (i + 1) := by
  induction l generalizing i with
  | nil => simp
  | cons a as ih =>
    cases i with
    | zero => simp
    | succ j => simp only [List.drop_succ_cons]; exact ih j

theorem compareLoop_eq_cmpSuffix (fuel : Nat) :
    ∀ (p1 p2 : List Int) (i : Nat),
      compareLoop p1 p2 fuel i = cmpSuffix fuel (p1.drop i) (p2.drop i) := by
  induction fuel with
  | zero => intro p1 p2 i; rfl
  | succ n ih =>
    intro p1 p2 i
    simp only [compareLoop, cmpSuffix, headD_drop_eq_getD, tail_drop_eq_drop_succ]
    split
    · rfl
    · split
      · rfl
      · exact ih p1 p2 (i + 1)

theorem cmpSuffix_nil_nil (fuel : Nat) : cmpSuffix fuel [] [] = 0 := by
  induction fuel with
  | zero => rfl
  | succ n ih => simp [cmpSuffix, ih]

theorem cmpSuffix_eq_segCmp (fuel : Nat) :
    ∀ (xs ys : List Int), xs.length ≤ fuel → ys.length ≤ fuel →
      cmpSuffix fuel xs ys = segCmp xs ys := by
  induction fuel with
  | zero =>
    intro xs ys hx hy
    rw [List.length_eq_zero.mp (Nat.le_zero.mp hx), List.length_eq_zero.mp (Nat.le_zero.mp hy)]
    simp [cmpSuffix, segCmp, segCmpNil]
  | succ n ih =>
    intro xs ys hx hy
    match xs, ys with
    | [], [] => simp [cmpSuffix_nil_nil, segCmp, segCmpNil]
    | [], y :: ys =>
      simp only [cmpSuffix, segCmp, segCmpNil, List.headD, List.tail]
      split
      · rfl
      · split
        · rfl
        · exact (ih [] ys (by simp) (Nat.le_of_succ_le_succ (by simpa using hy))).trans rfl
    | x :: xs, [] =>
      simp only [cmpSuffix, segCmp, List.headD, List.tail]
      split
      · rfl
      · split
        · rfl
        · exact ih xs [] (Nat.le_of_succ_le_succ (by simpa using hx)) (by simp)
    | x :: xs, y :: ys =>
      simp only [cmpSuffix, segCmp, List.headD, List.tail]
      split
      · rfl
      · split
        · rfl
        · exact ih xs ys (Nat.le_of_succ_le_succ (by simpa using hx))
            (Nat.le_of_succ_le_succ (by simpa using hy))

/-! ## Registry lemmas -/

theorem mapGet_mapSet_self (m : List (String × PluginInfo)) (k : String) (v : PluginInfo) :
    mapGet (mapSet m k v) k = some v := by
  induction m with
  | nil => simp [mapSet, mapGet]
  | cons hd tl ih =>
    obtain ⟨k1, v1⟩ := hd
    by_cases h : k1 = k
    · simp [mapSet, mapGet, h]
    · simp [mapSet, mapGet, h, ih]

theorem mapKeys_mapSet (m : List (String × PluginInfo)) (k : String) (v : PluginInfo) :
    mapKeys (mapSet m k v) =
      if k ∈ mapKeys m then mapKeys m else mapKeys m ++ [k] := by
  induction m with
  | nil => simp [mapSet, mapKeys]
  | cons hd tl ih =>
    obtain ⟨k1, v1⟩ := hd
    by_cases h : k1 = k
    · subst h
      simp [mapSet, mapKeys]
    · simp only [mapKeys] at ih
      by_cases h2 : k ∈ List.map (fun x => x.1) tl
      · simp [mapSet, mapKeys, h, h2, Ne.symm h, ih]
      · simp [mapSet, mapKeys, h, h2, Ne.symm h, ih]

theorem mem_mapKeys_mapSet (m : List (String × PluginInfo)) (k : String) (v : PluginInfo) :
    k ∈ mapKeys (mapSet m k v) := by
  rw [mapKeys_mapSet]
  split
  · assumption
  · simp

theorem nodup_mapKeys_mapSet (m : List (String × PluginInfo)) (k : String) (v : PluginInfo)
    (h : (mapKeys m).Nodup) : (mapKeys (mapSet m k v)).Nodup := by
  rw [mapKeys_mapSet]
  split
  · exact h
  · rename_i hk
    refine List.Nodup.append h (List.nodup_singleton k) ?_
    intro a ha hb
    rw [List.mem_singleton] at hb
    subst hb
    exact hk ha

/-! ## Transaction lemma -/

/-- The failure branches of `performPluginUpdate` never read the plugin
record (only the success object copies `plugin.version`), so a failing
transaction fails identically for every record. -/
theorem performPluginUpdate_failure_indep (tx : TxEnv) (p q : PluginInfo)
    (v e : String) (h : performPluginUpdate tx p v = .failure e) :
    performPluginUpdate tx q v = .failure e := by
  cases hf : tx.fetch with
  | error e1 => simp [performPluginUpdate, hf] at h ⊢; exact h
  | ok code =>
    cases hw : tx.write with
    | error e2 => simp [performPluginUpdate, hf, hw] at h ⊢; exact h
    | ok u =>
      cases hr : tx.reread with
      | error e3 => simp [performPluginUpdate, hf, hw, hr] at h ⊢; exact h
      | ok vcode =>
        by_cases hne : vcode = code
        · simp [performPluginUpdate, hf, hw, hr, hne] at h
        · simp [performPluginUpdate, hf, hw, hr, hne] at h ⊢; exact h

/-! ## Concrete fixtures used by the closed theorems and witnesses -/

/-- A freshly registered plugin record. -/
def pluginA : PluginInfo := mkPluginInfo "A" "v1.0.0" "o" "r" "plugins/a.js"

/-- The same record after `disablePluginUpdates("A")`. -/
def disabledA : PluginInfo := { pluginA with disabled := true }

/-- An environment in which everything succeeds: the release endpoint
returns tag `v2.0.0` and the transaction downloads, writes and verifies the
same body. -/
def envUp : CheckEnv :=
  { resolve := .ok (some "v2.0.0")
    tx :=
      { fetch := .ok "code2"
        backupPath := some "BACKUP-Plugins/A/a.js.backup"
        write := .ok ()
        reread := .ok "code2" }
    now := 7
    notifierPresent := true }

/-- An environment whose release request fails with HTTP 404. -/
def env404 : CheckEnv :=
  { resolve := .httpError (some 404) "Request failed with status code 404"
    tx :=
      { fetch := .ok "code2"
        backupPath := some "BACKUP-Plugins/A/a.js.backup"
        write := .ok ()
        reread := .ok "code2" }
    now := 7
    notifierPresent := true }

/-- An environment in which the write step of the transaction throws. -/
def envWriteFail : CheckEnv :=
  { resolve := .ok (some "v2.0.0")
    tx :=
      { fetch := .ok "code2"
        backupPath := none
        write := .error "EACCES: permission denied"
        reread := .error "unreachable" }
    now := 7
    notifierPresent := true }

/-! ## Claims -/

/-- C4 (counterexample): the source's `compareVersions` does not implement
the claimed algorithm.  On the pair `("1.v1", "1.0")` the code removes the
first `'v'` anywhere (`"1.v1" → "1.1"`) and returns `1`, while the claimed
algorithm (strip a single LEADING non-numeric character, here none since the
string starts with `'1'`, then parse `"v1"` as `0`) returns `0`. -/
theorem compareVersions_claimed_algorithm_refuted :
    compareVersions (some "1.v1") (some "1.0") = 1
    ∧ compareVersionsClaimed "1.v1" "1.0" = 0 := by
  exact ⟨by decide, by decide⟩

/-- C4 (amended): for every pair of nonempty version strings, `compareVersions`
removes the first occurrence of the character `'v'` anywhere in each string
(not a leading non-numeric strip), splits on `'.'`, parses each segment as a
number treating a missing or non-numeric segment as 0, and compares
segment-by-segment up to the longer length; the first non-equal segment
decides the result and exhausting equal segments yields 0 — i.e. it computes
`compareVersionsAmended`. -/
theorem compareVersions_eq_amended (a b : String) (ha : a ≠ "") (hb : b ≠ "") :
    compareVersions (some a) (some b) = compareVersionsAmended a b := by
  unfold compareVersions compareVersionsAmended
  rw [if_neg (by simp [jsFalsyStr, ha, hb])]
  simp only [Option.getD_some]
  rw [compareLoop_eq_cmpSuffix, List.drop_zero, List.drop_zero,
    cmpSuffix_eq_segCmp _ _ _ (Nat.le_max_left _ _) (Nat.le_max_right _ _)]

/-- Witness for `compareVersions_eq_amended` at `("v1.2.0", "v1.3.0")`. -/
theorem compareVersions_eq_amended_witness :
    ("v1.2.0" : String) ≠ "" ∧ ("v1.3.0" : String) ≠ ""
    ∧ compareVersions (some "v1.2.0") (some "v1.3.0") = compareVersionsAmended "v1.2.0" "v1.3.0" :=
  ⟨by decide, by decide, compareVersions_eq_amended "v1.2.0" "v1.3.0" (by decide) (by decide)⟩

/-- C5: the comparator's concrete vectors —
`compare("v1.2.0","v1.3.0") = -1`, `compare("1.10.0","1.9.9") = 1`,
`compare("v2.0","2.0.0") = 0` — and, for every other argument, an empty or
absent input on either side yields 0. -/
theorem compareVersions_vectors :
    compareVersions (some "v1.2.0") (some "v1.3.0") = -1
    ∧ compareVersions (some "1.10.0") (some "1.9.9") = 1
    ∧ compareVersions (some "v2.0") (some "2.0.0") = 0
    ∧ ∀ v : Option String,
        compareVersions none v = 0 ∧ compareVersions v none = 0
        ∧ compareVersions (some "") v = 0 ∧ compareVersions v (some "") = 0 := by
  refine ⟨by decide, by decide, by decide, ?_⟩
  intro v
  refine ⟨?_, ?_, ?_, ?_⟩ <;> simp [compareVersions, jsFalsyStr]

/-- C1 (code bug): the `disabled` flag is never read.  A registry whose only
plugin `A` is disabled still has `A` grouped into the cycle's repository
groups (the grouping loop of `checkAllUpdates` applies no filter), and the
manual `checkPluginUpdates("A")` still resolves, compares and runs the
transaction for it: with a newer release available the disabled plugin's
record ends up updated to `v2.0.0` and a notifier call is made. -/
theorem disabled_plugin_not_excluded :
    groupPlugins [("A", disabledA)] = [("o/r", [disabledA])]
    ∧ (mapGet (checkPluginUpdates envUp [("A", disabledA)] "A" resetSummaryValue).1 "A").map
        PluginInfo.version = some "v2.0.0"
    ∧ (checkPluginUpdates envUp [("A", disabledA)] "A" resetSummaryValue).2.2 ≠ []
    ∧ (checkRepositoryUpdates envUp [disabledA] resetSummaryValue).1.map PluginInfo.version
        = ["v2.0.0"] := by
  refine ⟨by decide, by decide, by decide, by decide⟩

/-- C7 (code bug): `addPluginUpdated` is never invoked, so a per-component
check whose transaction succeeds (here: `A` goes from `v1.0.0` to `v2.0.0`
and the notifier fires) leaves `pluginsUpdated` empty and `totalUpdated` at
0; only the checked side of the summary records the plugin. -/
theorem successful_update_missing_from_updated_list :
    (checkPluginUpdate envUp pluginA (some "v2.0.0") resetSummaryValue).plugin.version = "v2.0.0"
    ∧ (checkPluginUpdate envUp pluginA (some "v2.0.0") resetSummaryValue).plugin.needsUpdate = false
    ∧ (checkPluginUpdate envUp pluginA (some "v2.0.0") resetSummaryValue).events.length = 1
    ∧ (checkPluginUpdate envUp pluginA (some "v2.0.0") resetSummaryValue).summary.pluginsUpdated = []
    ∧ (checkPluginUpdate envUp pluginA (some "v2.0.0") resetSummaryValue).summary.totalUpdated = 0
    ∧ (checkPluginUpdate envUp pluginA (some "v2.0.0") resetSummaryValue).summary.pluginsChecked = ["A"] := by
  refine ⟨by decide, by decide, by decide, by decide, by decide, by decide⟩

/-- C2: when the comparison finds the installed version older and every
transaction step succeeds (download `code`, write, re-read the same `code`),
the per-component check sets `version` to the target, clears `needsUpdate`,
stamps `lastUpdated`, and makes exactly one
`onPluginUpdated(name, oldVersion, newVersion, backupPath)` call when the
notifier is configured and none when it is absent. -/
theorem check_success_updates_record (env : CheckEnv) (plugin : PluginInfo)
    (latest : String) (summary : UpdateSummary) (code : String)
    (hl : latest ≠ "")
    (hcmp : compareVersions (some plugin.version) (some latest) < 0)
    (hf : env.tx.fetch = .ok code)
    (hw : env.tx.write = .ok ())
    (hr : env.tx.reread = .ok code) :
    (checkPluginUpdate env plugin (some latest) summary).plugin.version = latest
    ∧ (checkPluginUpdate env plugin (some latest) summary).plugin.needsUpdate = false
    ∧ (checkPluginUpdate env plugin (some latest) summary).plugin.lastUpdated = some env.now
    ∧ (checkPluginUpdate env plugin (some latest) summary).events =
        (if env.notifierPresent then
          [{ name := plugin.name
             oldVersion := plugin.version
             newVersion := latest
             backupPath := env.tx.backupPath }]
        else []) := by
  simp only [checkPluginUpdate, performPluginUpdate, hf, hw, hr, if_neg hl, hcmp, if_true,
    ite_not, if_neg (by simp : ¬(code ≠ code))]
  simp [hcmp]

/-- Witness for `check_success_updates_record` in the all-success
environment `envUp`. -/
theorem check_success_updates_record_witness :
    ("v2.0.0" : String) ≠ ""
    ∧ compareVersions (some pluginA.version) (some "v2.0.0") < 0
    ∧ envUp.tx.fetch = .ok "code2"
    ∧ envUp.tx.write = .ok ()
    ∧ envUp.tx.reread = .ok "code2"
    ∧ ((checkPluginUpdate envUp pluginA (some "v2.0.0") resetSummaryValue).plugin.version = "v2.0.0"
      ∧ (checkPluginUpdate envUp pluginA (some "v2.0.0") resetSummaryValue).plugin.needsUpdate = false
      ∧ (checkPluginUpdate envUp pluginA (some "v2.0.0") resetSummaryValue).plugin.lastUpdated = some envUp.now
      ∧ (checkPluginUpdate envUp pluginA (some "v2.0.0") resetSummaryValue).events =
          (if envUp.notifierPresent then
            [{ name := pluginA.name
               oldVersion := pluginA.version
               newVersion := "v2.0.0"
               backupPath := envUp.tx.backupPath }]
          else [])) :=
  ⟨by decide, by decide, rfl, rfl, rfl,
    check_success_updates_record envUp pluginA "v2.0.0" resetSummaryValue "code2"
      (by decide) (by decide) rfl rfl rfl⟩

/-- C3: when the comparison finds the installed version older and the
transaction fails at any step — the conjunct at the end shows that a
verification mismatch after a successful write is such a failure, producing
`{updated: false}` with the fixed mismatch message — the per-component check
leaves `version` unchanged, keeps `needsUpdate` true, records the error
(`updateResult.error || 'Update failed'`) on the record, and makes no
notifier call. -/
theorem check_failure_preserves_record (env : CheckEnv) (plugin : PluginInfo)
    (latest : String) (summary : UpdateSummary) (e : String)
    (hl : latest ≠ "")
    (hcmp : compareVersions (some plugin.version) (some latest) < 0)
    (hfail : performPluginUpdate env.tx plugin latest = .failure e) :
    (checkPluginUpdate env plugin (some latest) summary).plugin.version = plugin.version
    ∧ (checkPluginUpdate env plugin (some latest) summary).plugin.needsUpdate = true
    ∧ (checkPluginUpdate env plugin (some latest) summary).plugin.error =
        some (if e = "" then "Update failed" else e)
    ∧ (checkPluginUpdate env plugin (some latest) summary).events = []
    ∧ ∀ (tx : TxEnv) (q : PluginInfo) (v code vcode : String),
        tx.fetch = .ok code → tx.write = .ok () → tx.reread = .ok vcode → vcode ≠ code →
          performPluginUpdate tx q v =
            .failure "File verification failed - update was not written correctly" := by
  have hfail2 :
      performPluginUpdate env.tx
        { plugin with
          latestVersion := some latest
          lastChecked := some env.now
          error := none
          needsUpdate := true } latest = .failure e :=
    performPluginUpdate_failure_indep env.tx plugin _ latest e hfail
  refine ?_
  simp only [checkPluginUpdate, if_neg hl, hcmp, if_true]
  rw [hfail2]
  refine ⟨by simp [hcmp], by simp [hcmp], by simp [hcmp], by simp [hcmp], ?_⟩
  intro tx q v code vcode hf hw hr hne
  simp [performPluginUpdate, hf, hw, hr, hne]

/-- Witness for `check_failure_preserves_record` in `envWriteFail`, where the
write step throws `EACCES`. -/
theorem check_failure_preserves_record_witness :
    ("v2.0.0" : String) ≠ ""
    ∧ compareVersions (some pluginA.version) (some "v2.0.0") < 0
    ∧ performPluginUpdate envWriteFail.tx pluginA "v2.0.0" = .failure "EACCES: permission denied"
    ∧ ((checkPluginUpdate envWriteFail pluginA (some "v2.0.0") resetSummaryValue).plugin.version = pluginA.version
      ∧ (checkPluginUpdate envWriteFail pluginA (some "v2.0.0") resetSummaryValue).plugin.needsUpdate = true
      ∧ (checkPluginUpdate envWriteFail pluginA (some "v2.0.0") resetSummaryValue).plugin.error =
          some (if "EACCES: permission denied" = "" then "Update failed" else "EACCES: permission denied")
      ∧ (checkPluginUpdate envWriteFail pluginA (some "v2.0.0") resetSummaryValue).events = []
      ∧ ∀ (tx : TxEnv) (q : PluginInfo) (v code vcode : String),
          tx.fetch = .ok code → tx.write = .ok () → tx.reread = .ok vcode → vcode ≠ code →
            performPluginUpdate tx q v =
              .failure "File verification failed - update was not written correctly") :=
  ⟨by decide, by decide, rfl,
    check_failure_preserves_record envWriteFail pluginA "v2.0.0" resetSummaryValue
      "EACCES: permission denied" (by decide) (by decide) rfl⟩

/-- C6: in a standalone per-component check whose resolver yields absence, no
transaction is attempted (the result does not depend on the transaction
environment at all), `error` is set to the "could not determine latest
version" message, `lastChecked` is stamped, `needsUpdate` stays false, no
notifier call is made — and the resolver itself never raises: every thrown
request error, the 404 case included, surfaces only as `none`. -/
theorem check_absence_records_error (env : CheckEnv) (plugin : PluginInfo)
    (summary : UpdateSummary)
    (h1 : getLatestVersion env.resolve = none)
    (h2 : plugin.needsUpdate = false) :
    (checkPluginUpdate env plugin none summary).plugin.error =
      some "Could not determine latest version"
    ∧ (checkPluginUpdate env plugin none summary).plugin.lastChecked = some env.now
    ∧ (checkPluginUpdate env plugin none summary).plugin.needsUpdate = false
    ∧ (checkPluginUpdate env plugin none summary).events = []
    ∧ (∀ tx2 : TxEnv,
        checkPluginUpdate { env with tx := tx2 } plugin none summary =
          checkPluginUpdate env plugin none summary)
    ∧ (∀ (status : Option Nat) (msg : String),
        getLatestVersion (.httpError status msg) = none) := by
  refine ⟨?_, ?_, ?_, ?_, ?_, ?_⟩
  · simp [checkPluginUpdate, h1]
  · simp [checkPluginUpdate, h1]
  · simp [checkPluginUpdate, h1, h2]
  · simp [checkPluginUpdate, h1]
  · intro tx2
    simp [checkPluginUpdate, h1]
  · intro status msg
    rfl

/-- Witness for `check_absence_records_error` in `env404`. -/
theorem check_absence_records_error_witness :
    getLatestVersion env404.resolve = none
    ∧ pluginA.needsUpdate = false
    ∧ ((checkPluginUpdate env404 pluginA none resetSummaryValue).plugin.error =
        some "Could not determine latest version"
      ∧ (checkPluginUpdate env404 pluginA none resetSummaryValue).plugin.lastChecked = some env404.now
      ∧ (checkPluginUpdate env404 pluginA none resetSummaryValue).plugin.needsUpdate = false
      ∧ (checkPluginUpdate env404 pluginA none resetSummaryValue).events = []
      ∧ (∀ tx2 : TxEnv,
          checkPluginUpdate { env404 with tx := tx2 } pluginA none resetSummaryValue =
            checkPluginUpdate env404 pluginA none resetSummaryValue)
      ∧ (∀ (status : Option Nat) (msg : String),
          getLatestVersion (.httpError status msg) = none)) :=
  ⟨rfl, rfl,
    check_absence_records_error env404 pluginA resetSummaryValue rfl rfl⟩

/-- C10: when a grouped repository check cannot determine the latest version
it returns before touching anything: every member record, the summary (and so
its checked list) and the notifier-call list are all exactly unchanged —
whereas the standalone per-component check in the same situation stamps
`lastChecked` and records the "could not determine latest version" error on
the record (while still skipping the summary). -/
theorem group_absence_leaves_members_unchanged (env : CheckEnv)
    (plugins : List PluginInfo) (summary : UpdateSummary)
    (p : PluginInfo) (s2 : UpdateSummary)
    (h : getLatestVersion env.resolve = none) :
    checkRepositoryUpdates env plugins summary = (plugins, summary, [])
    ∧ (checkPluginUpdate env p none s2).plugin.error =
        some "Could not determine latest version"
    ∧ (checkPluginUpdate env p none s2).plugin.lastChecked = some env.now
    ∧ (checkPluginUpdate env p none s2).summary = s2 := by
  refine ⟨?_, ?_, ?_, ?_⟩
  · simp [checkRepositoryUpdates, h]
  · simp [checkPluginUpdate, h]
  · simp [checkPluginUpdate, h]
  · simp [checkPluginUpdate, h]

/-- Witness for `group_absence_leaves_members_unchanged` in `env404` with the
one-member group `[disabledA]`. -/
theorem group_absence_leaves_members_unchanged_witness :
    getLatestVersion env404.resolve = none
    ∧ (checkRepositoryUpdates env404 [disabledA] resetSummaryValue =
        ([disabledA], resetSummaryValue, [])
      ∧ (checkPluginUpdate env404 pluginA none resetSummaryValue).plugin.error =
          some "Could not determine latest version"
      ∧ (checkPluginUpdate env404 pluginA none resetSummaryValue).plugin.lastChecked = some env404.now
      ∧ (checkPluginUpdate env404 pluginA none resetSummaryValue).summary = resetSummaryValue) :=
  ⟨rfl,
    group_absence_leaves_members_unchanged env404 [disabledA] resetSummaryValue
      pluginA resetSummaryValue rfl⟩

/-- C8 (counterexample): `printUpdateSummary` returns before resetting when
`totalChecked === 0`.  Calling `addPluginUpdated` twice for `"A"` in a fresh
cycle (never marking it checked) leaves exactly one occurrence and counter 1,
but the subsequent report resets nothing: the updated list and counter
survive it, contradicting "report() resets all counters to zero and all
lists to empty afterward". -/
theorem report_skips_reset_when_nothing_checked :
    (printUpdateSummary
        (addPluginUpdated (addPluginUpdated resetSummaryValue "A" "v2") "A" "v2")).totalUpdated = 1
    ∧ (printUpdateSummary
        (addPluginUpdated (addPluginUpdated resetSummaryValue "A" "v2") "A" "v2")).pluginsUpdated
        = ["A"] := by
  exact ⟨by decide, by decide⟩

/-- C8 (amended): `addPluginChecked` and `addPluginUpdated` are idempotent
add-if-absent operations — a second call with the same name changes nothing,
and a first call on an absent name leaves exactly one occurrence with the
counter incremented to match — and the report resets all counters to zero
and all lists to empty whenever at least one component was marked checked
(`totalChecked ≠ 0`); when the checked counter is zero the report returns
without resetting. -/
theorem summary_marks_idempotent_report_resets (s : UpdateSummary) (n ver : String)
    (hc : n ∉ s.pluginsChecked) (hu : n ∉ s.pluginsUpdated)
    (hr : s.totalChecked ≠ 0) :
    addPluginChecked (addPluginChecked s n) n = addPluginChecked s n
    ∧ addPluginUpdated (addPluginUpdated s n ver) n ver = addPluginUpdated s n ver
    ∧ (addPluginChecked s n).pluginsChecked.count n = 1
    ∧ (addPluginChecked s n).totalChecked = s.totalChecked + 1
    ∧ (addPluginUpdated s n ver).pluginsUpdated.count n = 1
    ∧ (addPluginUpdated s n ver).totalUpdated = s.totalUpdated + 1
    ∧ printUpdateSummary s = resetSummaryValue := by
  refine ⟨?_, ?_, ?_, ?_, ?_, ?_, ?_⟩
  · simp [addPluginChecked, hc]
  · simp [addPluginUpdated, hu]
  · simp [addPluginChecked, hc, List.count_append, List.count_eq_zero.mpr hc]
  · simp [addPluginChecked, hc]
  · simp [addPluginUpdated, hu, List.count_append, List.count_eq_zero.mpr hu]
  · simp [addPluginUpdated, hu]
  · simp [printUpdateSummary, hr]

/-- Witness for `summary_marks_idempotent_report_resets` on a cycle that has
already checked and updated `"B"`. -/
theorem summary_marks_idempotent_report_resets_witness :
    ("A" : String) ∉ (["B"] : List String)
    ∧ ("A" : String) ∉ (["B"] : List String)
    ∧ (1 : Nat) ≠ 0
    ∧ (let s : UpdateSummary :=
        { totalChecked := 1, totalUpdated := 1, pluginsChecked := ["B"],
          pluginsUpdated := ["B"], lastCheck := none }
      addPluginChecked (addPluginChecked s "A") "A" = addPluginChecked s "A"
      ∧ addPluginUpdated (addPluginUpdated s "A" "v9") "A" "v9" = addPluginUpdated s "A" "v9"
      ∧ (addPluginChecked s "A").pluginsChecked.count "A" = 1
      ∧ (addPluginChecked s "A").totalChecked = s.totalChecked + 1
      ∧ (addPluginUpdated s "A" "v9").pluginsUpdated.count "A" = 1
      ∧ (addPluginUpdated s "A" "v9").totalUpdated = s.totalUpdated + 1
      ∧ printUpdateSummary s = resetSummaryValue) :=
  ⟨by decide, by decide, by decide,
    summary_marks_idempotent_report_resets
      { totalChecked := 1, totalUpdated := 1, pluginsChecked := ["B"],
        pluginsUpdated := ["B"], lastCheck := none }
      "A" "v9" (by decide) (by decide) (by decide)⟩

/-- C9: registration followed immediately by lookup returns the fresh record
with `needsUpdate = false` and `lastChecked = null`; a second registration
under the same name overwrites the stored record in place — the lookup then
returns the new record, and the registry's key list is unchanged and still
duplicate-free, so the name stays a unique key. -/
theorem register_get_roundtrip_overwrite (reg : List (String × PluginInfo))
    (n v o r fp v2 o2 r2 fp2 : String)
    (h : (mapKeys reg).Nodup) :
    getPluginInfo (registerPlugin reg n v o r fp).1 n = some (mkPluginInfo n v o r fp)
    ∧ (mkPluginInfo n v o r fp).needsUpdate = false
    ∧ (mkPluginInfo n v o r fp).lastChecked = none
    ∧ getPluginInfo (registerPlugin (registerPlugin reg n v o r fp).1 n v2 o2 r2 fp2).1 n
        = some (mkPluginInfo n v2 o2 r2 fp2)
    ∧ mapKeys (registerPlugin (registerPlugin reg n v o r fp).1 n v2 o2 r2 fp2).1
        = mapKeys (registerPlugin reg n v o r fp).1
    ∧ (mapKeys (registerPlugin (registerPlugin reg n v o r fp).1 n v2 o2 r2 fp2).1).Nodup := by
  refine ⟨mapGet_mapSet_self _ _ _, rfl, rfl, mapGet_mapSet_self _ _ _, ?_, ?_⟩
  · show mapKeys (mapSet (mapSet reg n (mkPluginInfo n v o r fp)) n (mkPluginInfo n v2 o2 r2 fp2))
      = mapKeys (mapSet reg n (mkPluginInfo n v o r fp))
    rw [mapKeys_mapSet, if_pos (mem_mapKeys_mapSet reg n (mkPluginInfo n v o r fp))]
  · exact nodup_mapKeys_mapSet _ _ _ (nodup_mapKeys_mapSet _ _ _ h)

/-- Witness for `register_get_roundtrip_overwrite` on a registry already
holding `"B"`. -/
theorem register_get_roundtrip_overwrite_witness :
    (mapKeys [("B", mkPluginInfo "B" "v1.0.0" "o" "r" "plugins/b.js")]).Nodup
    ∧ (getPluginInfo (registerPlugin [("B", mkPluginInfo "B" "v1.0.0" "o" "r" "plugins/b.js")]
          "A" "v1.0.0" "o" "r" "plugins/a.js").1 "A"
        = some (mkPluginInfo "A" "v1.0.0" "o" "r" "plugins/a.js")
      ∧ (mkPluginInfo "A" "v1.0.0" "o" "r" "plugins/a.js").needsUpdate = false
      ∧ (mkPluginInfo "A" "v1.0.0" "o" "r" "plugins/a.js").lastChecked = none
      ∧ getPluginInfo (registerPlugin (registerPlugin [("B", mkPluginInfo "B" "v1.0.0" "o" "r" "plugins/b.js")]
            "A" "v1.0.0" "o" "r" "plugins/a.js").1 "A" "v1.1.0" "o2" "r2" "plugins/a2.js").1 "A"
          = some (mkPluginInfo "A" "v1.1.0" "o2" "r2" "plugins/a2.js")
      ∧ mapKeys (registerPlugin (registerPlugin [("B", mkPluginInfo "B" "v1.0.0" "o" "r" "plugins/b.js")]
            "A" "v1.0.0" "o" "r" "plugins/a.js").1 "A" "v1.1.0" "o2" "r2" "plugins/a2.js").1
          = mapKeys (registerPlugin [("B", mkPluginInfo "B" "v1.0.0" "o" "r" "plugins/b.js")]
            "A" "v1.0.0" "o" "r" "plugins/a.js").1
      ∧ (mapKeys (registerPlugin (registerPlugin [("B", mkPluginInfo "B" "v1.0.0" "o" "r" "plugins/b.js")]
            "A" "v1.0.0" "o" "r" "plugins/a.js").1 "A" "v1.1.0" "o2" "r2" "plugins/a2.js").1).Nodup) :=
  ⟨by decide,
    register_get_roundtrip_overwrite [("B", mkPluginInfo "B" "v1.0.0" "o" "r" "plugins/b.js")]
      "A" "v1.0.0" "o" "r" "plugins/a.js" "v1.1.0" "o2" "r2" "plugins/a2.js" (by decide)⟩
